import Mathlib

/-!
Verification of the episode reconciliation core of `jellyfinmanager`.

Part 1 embeds the multi-part-episode merge detector
`tvdb.FindMissingEpisodes` (src/api/tvdb/tvdb.go, lines 216-287).

Part 2 embeds the restore coordinator `restoreMovies` / `restoreTVShows`
from the main package together with the two-tier identity resolution they
perform inline.

Modelling conventions:
* Go `int` values are modelled as `Int` (runtimes, season and episode
  numbers); counters that only ever start at zero and are incremented are
  modelled as `Nat`.
* The Go map `jellyfinEpisodes map[string]int`, keyed by the string
  `fmt.Sprintf("%d:%d", season, episode)`, is modelled as a partial
  function `Int × Int → Option Int`; the Go key encodes exactly that pair
  (decimal rendering of integers contains no colon, so the encoding is
  injective).
* The Go check `errDate == nil && airDate.Before(time.Now())`
  (parse the `Aired` string, succeed, and be strictly before the current
  wall-clock instant) is the only way the air-date string is consulted.
  It is modelled by a parameter `airedPast : String → Bool` giving, for
  the run's clock, the value of that conjunction on each air-date string.
* The source compares runtimes with `float64(chainJfRuntime) >=
  float64(chainTvdbRuntimeAccum) * 0.85`.  The model renders this
  comparison exactly over `ℚ`.  (For runtimes below 2^52 minutes the two
  agree: `float64` of such integers is exact, and the float product with
  `0.85` differs from the rational product by less than `accum * 2^-52`,
  an interval that contains no integer boundary for any realistic value.)
-/

/-- `tvdb.Episode` (src/api/tvdb/tvdb.go, lines 201-212), restricted to
the fields `FindMissingEpisodes` reads.  The unread transport fields
(`ID`, `SeriesID`, `AbsoluteNumber`, `FinaleType`) are omitted. -/
structure Episode where
  name : String := ""
  overview : String := ""
  aired : String := ""
  seasonNumber : Int := 0
  number : Int := 0
  runtimeMinutes : Int := 0
deriving Repr, DecidableEq

/-- `models.MissingEpisode` (models package). -/
structure MissingEpisode where
  seriesName : String := ""
  seasonNumber : Int := 0
  episodeNumber : Int := 0
  episodeName : String := ""
  airDate : String := ""
  overview : String := ""
deriving Repr, DecidableEq

/-- The `models.MissingEpisode` literal built at tvdb.go lines 272-278:
five fields copied from the episode, `SeriesName` left at its zero
value `""`. -/
def mkMissing (ep : Episode) : MissingEpisode :=
  { seasonNumber := ep.seasonNumber
    episodeNumber := ep.number
    episodeName := ep.name
    airDate := ep.aired
    overview := ep.overview }

/-- The four chain-tracking variables of `FindMissingEpisodes`
(tvdb.go lines 220-225).  Go zero values give the initial state. -/
structure ChainState where
  chainActive : Bool := false
  chainSeason : Int := 0
  chainJfRuntime : Int := 0
  chainTvdbRuntimeAccum : Int := 0
deriving Repr, DecidableEq

/-- The merge-length check of tvdb.go lines 257-258:
`float64(chainJfRuntime) >= float64(chainTvdbRuntimeAccum) * 0.85`,
rendered exactly over the integers after clearing the denominator of
`0.85 = 85/100` (see the file header for why the exact comparison and
the float one agree on all realistic runtimes). -/
def mergeCheck (chainJfRuntime chainTvdbRuntimeAccum : Int) : Bool :=
  decide (85 * chainTvdbRuntimeAccum ≤ 100 * chainJfRuntime)

/-- One iteration of the loop body of `FindMissingEpisodes`
(tvdb.go lines 227-284): given the chain state before episode `ep`,
return the chain state after it together with the `MissingEpisode`
appended for it, if any. -/
def stepEpisode (airedPast : String → Bool) (jellyfinEpisodes : Int × Int → Option Int)
    (checkSpecials : Bool) (st : ChainState) (ep : Episode) :
    ChainState × Option MissingEpisode :=
  match jellyfinEpisodes (ep.seasonNumber, ep.number) with
  | some jfRuntime =>
      -- Episode found in Jellyfin: (re)start the chain.
      (⟨true, ep.seasonNumber, jfRuntime, ep.runtimeMinutes⟩, none)
  | none =>
      if (ep.seasonNumber != 0 || checkSpecials) && airedPast ep.aired then
        if st.chainActive && (st.chainSeason == ep.seasonNumber) then
          -- Tentatively fold this episode into the chain.
          let accum := st.chainTvdbRuntimeAccum + ep.runtimeMinutes
          if mergeCheck st.chainJfRuntime accum then
            ({ st with chainTvdbRuntimeAccum := accum }, none)
          else
            ({ st with chainActive := false, chainTvdbRuntimeAccum := accum },
              some (mkMissing ep))
        else
          ({ st with chainActive := false }, some (mkMissing ep))
      else
        -- Not a candidate (special excluded, or not aired in the past):
        -- no chain effect, no emission.
        (st, none)

/-- The scan of `FindMissingEpisodes` starting from an arbitrary chain
state: processes the remaining episodes in order, collecting the emitted
`MissingEpisode`s in emission order. -/
def findMissingFrom (airedPast : String → Bool) (jellyfinEpisodes : Int × Int → Option Int)
    (checkSpecials : Bool) : List Episode → ChainState → List MissingEpisode
  | [], _ => []
  | ep :: rest, st =>
      match stepEpisode airedPast jellyfinEpisodes checkSpecials st ep with
      | (st2, none) => findMissingFrom airedPast jellyfinEpisodes checkSpecials rest st2
      | (st2, some m) => m :: findMissingFrom airedPast jellyfinEpisodes checkSpecials rest st2

/-- `tvdb.FindMissingEpisodes` (tvdb.go lines 216-287).  The extra first
argument `airedPast` models the run's wall clock (see file header); the
remaining three arguments are the Go parameters in order. -/
def FindMissingEpisodes (airedPast : String → Bool) (tvdbEpisodes : List Episode)
    (jellyfinEpisodes : Int × Int → Option Int) (checkSpecials : Bool) :
    List MissingEpisode :=
  findMissingFrom airedPast jellyfinEpisodes checkSpecials tvdbEpisodes {}

/-- Concrete clock for test inputs: every air date counts as parsed and
strictly in the past. -/
def pastAll : String → Bool := fun _ => true

/-- Concrete local catalog: only S01E01 is present, with observed
runtime 100. -/
def jfOnly11Runtime100 : Int × Int → Option Int :=
  fun k => if k = (1, 1) then some 100 else none

/-- Concrete local catalog: only S01E01 is present, with observed
runtime 102. -/
def jfOnly11Runtime102 : Int × Int → Option Int :=
  fun k => if k = (1, 1) then some 102 else none

/-- S01E01, expected runtime 100. -/
def epS1E1 : Episode :=
  { name := "Part 1", aired := "2020-01-01", seasonNumber := 1, number := 1
    runtimeMinutes := 100 }

/-- S01E02, expected runtime 20. -/
def epS1E2 : Episode :=
  { name := "Part 2", aired := "2020-01-08", seasonNumber := 1, number := 2
    runtimeMinutes := 20 }

/-- Episode airing after both C3 runs: S01E01 of some series, expected
runtime 30, aired 2099-01-01. -/
def epLater : Episode :=
  { name := "Later", aired := "2099-01-01", seasonNumber := 1, number := 1
    runtimeMinutes := 30 }

/-- Empty local catalog: no episode is present in Jellyfin. -/
def jfEmpty : Int × Int → Option Int := fun _ => none

/-- Clock of a run at which no air date has passed yet. -/
def noneAired : String → Bool := fun _ => false

/-- Concrete chain state for witnesses: active on season 1, observed
local runtime 102, accumulated expected runtime 100. -/
def chainAt102 : ChainState :=
  { chainActive := true, chainSeason := 1, chainJfRuntime := 102
    chainTvdbRuntimeAccum := 100 }

/-- A special (season 0) episode, aired in the past. -/
def epSpecial : Episode :=
  { name := "Special", aired := "2019-12-24", seasonNumber := 0, number := 1
    runtimeMinutes := 45 }

/-!
Part 2: the restore coordinator (`restoreMovies`, lines 225-281, and
`restoreTVShows`, lines 283-391, of the main package).

Modelling conventions for this part:
* Go maps used as lookup indices (`providerIdMap`, `nameMap`,
  `nameSeasonMap`) are modelled as partial functions `String → Option _`;
  where the source builds such a map itself, insertion is modelled as
  functional update (last write wins, as for a Go map).
* A record's `ProviderIDs` map is iterated by Go `range` in an
  unspecified order; the model carries it as an association list whose
  list order stands for the iteration order of the run.
* The remote collaborator calls are modelled as function parameters:
  `GetAllMovies` as an `Option` of the two indices it returns,
  `FindSeriesID` as `String → Option String`, `GetEpisodesForSeries` as
  `String → Option (List JellyfinEpisode)` (in each case `none` models
  `err != nil`), and `MarkAsWatched` as `mark : String → Bool`
  (`true` models `err == nil`).  Every id passed to `MarkAsWatched` is
  additionally logged in the `markCalls` field of the result so that
  absence of a remote mutation is observable.
-/

/-- `models.WatchedItem`, restricted to the fields the restore path
reads (`ID`, `Type` and `PlayedDate` are not consulted by
`restoreMovies`/`restoreTVShows`). -/
structure WatchedItem where
  name : String := ""
  seriesName : String := ""
  seasonName : String := ""
  providerIDs : List (String × String) := []
deriving Repr, DecidableEq

/-- `jellyfin.MovieInfo`. -/
structure MovieInfo where
  id : String := ""
  played : Bool := false
deriving Repr, DecidableEq

/-- The loop-local `EpisodeInfo` struct of `restoreTVShows`
(lines 315-318). -/
structure EpisodeInfo where
  id : String := ""
  played : Bool := false
deriving Repr, DecidableEq

/-- `jellyfin.EpisodeInfo` (the episodes fetched by
`GetEpisodesForSeries`), restricted to the fields `restoreTVShows`
reads. -/
structure JellyfinEpisode where
  id : String := ""
  name : String := ""
  seasonName : String := ""
  providerIDs : List (String × String) := []
  played : Bool := false
deriving Repr, DecidableEq

/-- The provider-ID loop shared by restoreMovies (lines 239-246) and
restoreTVShows (lines 346-353): walk the record's provider IDs in
iteration order and return the first index hit for a key
`provider ++ ":" ++ id`. -/
def lookupProvider {α : Type} (idx : String → Option α) :
    List (String × String) → Option α
  | [] => none
  | (provider, id) :: rest =>
      match idx (provider ++ ":" ++ id) with
      | some info => some info
      | none => lookupProvider idx rest

/-- Movie resolution (restoreMovies lines 235-254): provider IDs first,
then fall back to name matching. -/
def resolveMovie (providerIdMap nameMap : String → Option MovieInfo)
    (movie : WatchedItem) : Option MovieInfo :=
  match lookupProvider providerIdMap movie.providerIDs with
  | some info => some info
  | none => nameMap movie.name

/-- Episode resolution (restoreTVShows lines 341-362): provider IDs
first, then fall back to `SeasonName ++ ":" ++ Name` matching. -/
def resolveEpisode (providerIdMap nameSeasonMap : String → Option EpisodeInfo)
    (episode : WatchedItem) : Option EpisodeInfo :=
  match lookupProvider providerIdMap episode.providerIDs with
  | some info => some info
  | none => nameSeasonMap (episode.seasonName ++ ":" ++ episode.name)

/-- The outcome counters of a restore run, plus the log of every id the
run passed to `MarkAsWatched`. -/
structure Tally where
  successful : Nat := 0
  failed : Nat := 0
  markCalls : List String := []
deriving Repr, DecidableEq

/-- Per-movie body of the restoreMovies loop (lines 232-278): resolve;
not found counts as failed; already played counts as successful with no
mark call; otherwise issue the mark call and count by its outcome. -/
def stepMovie (providerIdMap nameMap : String → Option MovieInfo)
    (mark : String → Bool) (t : Tally) (movie : WatchedItem) : Tally :=
  match resolveMovie providerIdMap nameMap movie with
  | none => { t with failed := t.failed + 1 }
  | some info =>
      if info.played then
        { t with successful := t.successful + 1 }
      else if mark info.id then
        { t with successful := t.successful + 1, markCalls := t.markCalls ++ [info.id] }
      else
        { t with failed := t.failed + 1, markCalls := t.markCalls ++ [info.id] }

/-- `restoreMovies` (lines 225-281).  `fetchAllMovies` models the
`client.GetAllMovies()` call: `none` is the error branch at lines
227-230, which fails the whole batch. -/
def restoreMovies
    (fetchAllMovies : Option ((String → Option MovieInfo) × (String → Option MovieInfo)))
    (mark : String → Bool) (movies : List WatchedItem) : Tally :=
  match fetchAllMovies with
  | none => { successful := 0, failed := movies.length, markCalls := [] }
  | some (providerIdMap, nameMap) =>
      movies.foldl (stepMovie providerIdMap nameMap mark) {}

/-- Functional update modelling one Go map insertion (last write wins). -/
def insertKey {α : Type} (m : String → Option α) (k : String) (v : α) :
    String → Option α :=
  fun k2 => if k2 = k then some v else m k2

/-- The lookup-map construction of restoreTVShows (lines 314-335): for
each fetched episode, insert `{ID, Played}` under its
`SeasonName ++ ":" ++ Name` key and under every provider key. -/
def buildEpisodeMaps (episodes : List JellyfinEpisode) :
    (String → Option EpisodeInfo) × (String → Option EpisodeInfo) :=
  episodes.foldl
    (fun maps ep =>
      let info : EpisodeInfo := { id := ep.id, played := ep.played }
      (ep.providerIDs.foldl
          (fun pm pr => insertKey pm (pr.1 ++ ":" ++ pr.2) info) maps.1,
        insertKey maps.2 (ep.seasonName ++ ":" ++ ep.name) info))
    (fun _ => none, fun _ => none)

/-- Per-episode body of the restoreTVShows loop (lines 341-384), with
the same outcome logic as `stepMovie`. -/
def stepShowEpisode (providerIdMap nameSeasonMap : String → Option EpisodeInfo)
    (mark : String → Bool) (t : Tally) (episode : WatchedItem) : Tally :=
  match resolveEpisode providerIdMap nameSeasonMap episode with
  | none => { t with failed := t.failed + 1 }
  | some info =>
      if info.played then
        { t with successful := t.successful + 1 }
      else if mark info.id then
        { t with successful := t.successful + 1, markCalls := t.markCalls ++ [info.id] }
      else
        { t with failed := t.failed + 1, markCalls := t.markCalls ++ [info.id] }

/-- Total number of snapshot episodes in one series group (the sum the
failure branches at lines 298-300 and 308-310 add to `failed`). -/
def totalEpisodes (seasons : List (String × List WatchedItem)) : Nat :=
  (seasons.map (fun s => s.2.length)).sum

/-- One series group of the restoreTVShows loop (lines 285-388):
resolve the series id (`FindSeriesID`), fetch its live episodes
(`GetEpisodesForSeries`), build the lookup maps, and process every
season's episodes; either remote failure fails the whole group. -/
def processSeries (findSeriesID : String → Option String)
    (getEpisodesForSeries : String → Option (List JellyfinEpisode))
    (mark : String → Bool) (t : Tally) (seriesName : String)
    (seasons : List (String × List WatchedItem)) : Tally :=
  match findSeriesID seriesName with
  | none => { t with failed := t.failed + totalEpisodes seasons }
  | some seriesID =>
      match getEpisodesForSeries seriesID with
      | none => { t with failed := t.failed + totalEpisodes seasons }
      | some episodes =>
          let maps := buildEpisodeMaps episodes
          seasons.foldl
            (fun t2 season => season.2.foldl (stepShowEpisode maps.1 maps.2 mark) t2) t

/-- `restoreTVShows` (lines 283-391).  The nested Go maps
`map[string]map[string][]WatchedItem` are carried as nested association
lists whose order stands for the run's map iteration order. -/
def restoreTVShows (findSeriesID : String → Option String)
    (getEpisodesForSeries : String → Option (List JellyfinEpisode))
    (mark : String → Bool)
    (tvShowMap : List (String × List (String × List WatchedItem))) : Tally :=
  tvShowMap.foldl
    (fun t g => processSeries findSeriesID getEpisodesForSeries mark t g.1 g.2) {}

/-- Concrete movie provider index for witnesses: one already-played
movie under the key Imdb:tt1. -/
def pmW : String → Option MovieInfo :=
  fun k => if k = "Imdb:tt1" then some { id := "m1", played := true } else none

/-- Concrete empty movie name index. -/
def nmW : String → Option MovieInfo := fun _ => none

/-- Concrete episode provider index for witnesses: one already-played
episode under the key Tvdb:42. -/
def peW : String → Option EpisodeInfo :=
  fun k => if k = "Tvdb:42" then some { id := "e1", played := true } else none

/-- Concrete empty episode secondary index. -/
def neW : String → Option EpisodeInfo := fun _ => none

/-- The already-played live movie the witnesses resolve to. -/
def miW : MovieInfo := { id := "m1", played := true }

/-- The already-played live episode the witnesses resolve to. -/
def eiW : EpisodeInfo := { id := "e1", played := true }

/-- Snapshot movie record carrying the provider ID Imdb:tt1. -/
def movieW : WatchedItem := { name := "M", providerIDs := [("Imdb", "tt1")] }

/-- Snapshot episode record carrying the provider ID Tvdb:42. -/
def episodeW : WatchedItem :=
  { name := "Ep5", seriesName := "Show", seasonName := "Season 1"
    providerIDs := [("Tvdb", "42")] }

/-- A mark collaborator that fails every invocation; a success outcome
despite it shows the mark command was never consulted. -/
def markFail : String → Bool := fun _ => false

/-- A series lookup that fails for every name. -/
def findSeriesNone : String → Option String := fun _ => none

/-- An episode fetcher that fails for every series id. -/
def fetchNone : String → Option (List JellyfinEpisode) := fun _ => none

/-- Fresh tally for witnesses. -/
def tW : Tally := {}

/-!
Theorems.  Helper lemmas come first; each claim's theorem carries its
claim id in its doc comment.
-/

/-- The integer merge check is exactly the rational comparison
`chainJfRuntime ≥ chainTvdbRuntimeAccum * 0.85` of the source. -/
theorem mergeCheck_iff (jf accum : Int) :
    mergeCheck jf accum = true ↔ (jf : ℚ) ≥ (accum : ℚ) * 0.85 := by
  rw [mergeCheck, decide_eq_true_eq, ge_iff_le]
  have hcast : (85 * accum ≤ 100 * jf) ↔
      ((85 * accum : Int) : ℚ) ≤ ((100 * jf : Int) : ℚ) := Int.cast_le.symm
  rw [hcast]
  push_cast
  constructor <;> intro h <;> linarith

/-- The provider-ID loop returns the index value at the first provider
key that hits. -/
theorem lookupProvider_eq_findSome {α : Type} (idx : String → Option α)
    (l : List (String × String)) :
    lookupProvider idx l = l.findSome? (fun pr => idx (pr.1 ++ ":" ++ pr.2)) := by
  induction l with
  | nil => rfl
  | cons pr rest ih =>
      cases pr with
      | mk provider id =>
          rw [lookupProvider, List.findSome?_cons]
          cases h : idx (provider ++ ":" ++ id) <;> simp [h, ih]

/-- C2: with a local S01E01 of observed runtime 100 (expected 100)
followed by an absent, past-aired, same-season S01E02 of expected
runtime 20, the second episode is reported missing (100 < 0.85*120 =
102); raising the observed runtime to 102 folds it instead (102 ≥ 102),
so nothing is reported. -/
theorem FindMissingEpisodes_threshold_boundary :
    FindMissingEpisodes pastAll [epS1E1, epS1E2] jfOnly11Runtime100 false
        = [mkMissing epS1E2] ∧
    FindMissingEpisodes pastAll [epS1E1, epS1E2] jfOnly11Runtime102 false
        = [] := by
  constructor <;> decide

/-- C3 counterexample: two runs of `FindMissingEpisodes` on identical
episode list, identical local-runtime map and identical
`checkSpecials` flag, but at two different wall-clock times (before and
after the air date of `epLater`), produce different outputs — the
function also depends on `time.Now()`, consulted inside the loop, not
only on its three declared inputs. -/
theorem FindMissingEpisodes_depends_on_clock :
    FindMissingEpisodes noneAired [epLater] jfEmpty false ≠
      FindMissingEpisodes pastAll [epLater] jfEmpty false := by
  decide

/-- C3 amended: `FindMissingEpisodes` is a pure, deterministic function
of its three declared inputs TOGETHER WITH the run's evaluation of the
aired-in-the-past test (the wall clock): two runs with identical
episodes, local-runtime map, `checkSpecials` flag and the same clock
produce identical outputs. -/
theorem FindMissingEpisodes_deterministic (airedPast : String → Bool)
    (tvdbEpisodes : List Episode) (jellyfinEpisodes : Int × Int → Option Int)
    (checkSpecials : Bool) :
    FindMissingEpisodes airedPast tvdbEpisodes jellyfinEpisodes checkSpecials =
      FindMissingEpisodes airedPast tvdbEpisodes jellyfinEpisodes checkSpecials :=
  rfl

/-- C5: movie and episode resolution return the index entry of the
first provider key (in the record's own iteration order) that hits;
only when no provider key hits do they consult the secondary key (the
movie name, respectively `seasonName:episodeName`); if that misses too
the result is `none` (not found).  In particular any provider-ID match
is preferred over a secondary-key match. -/
theorem resolve_prefers_provider_id
    (pm nm : String → Option MovieInfo) (pe ne : String → Option EpisodeInfo)
    (m e : WatchedItem) :
    resolveMovie pm nm m =
      (match m.providerIDs.findSome? (fun pr => pm (pr.1 ++ ":" ++ pr.2)) with
        | some info => some info
        | none => nm m.name) ∧
    resolveEpisode pe ne e =
      (match e.providerIDs.findSome? (fun pr => pe (pr.1 ++ ":" ++ pr.2)) with
        | some info => some info
        | none => ne (e.seasonName ++ ":" ++ e.name)) := by
  rw [resolveMovie, resolveEpisode, lookupProvider_eq_findSome,
    lookupProvider_eq_findSome]
  exact ⟨rfl, rfl⟩

/-- C1: for an episode that is absent locally, non-special (or
`checkSpecials`), and aired strictly in the past, the scan step folds
it (emits nothing) if and only if a chain is active, the chain's season
equals the episode's season, and the chain's observed local runtime is
at least `0.85` times the accumulated expected runtime including this
episode; a fold leaves the chain active, and otherwise a
`MissingEpisode` copied from the episode is emitted and the chain is
deactivated (so only a locally-present episode can start a new one). -/
theorem stepEpisode_fold_iff (p : String → Bool) (jf : Int × Int → Option Int)
    (inc : Bool) (st : ChainState) (e : Episode)
    (habs : jf (e.seasonNumber, e.number) = none)
    (hsp : e.seasonNumber ≠ 0 ∨ inc = true)
    (hpast : p e.aired = true) :
    ((stepEpisode p jf inc st e).2 = none ↔
      (st.chainActive = true ∧ st.chainSeason = e.seasonNumber ∧
        (st.chainJfRuntime : ℚ) ≥
          ((st.chainTvdbRuntimeAccum + e.runtimeMinutes : Int) : ℚ) * 0.85)) ∧
    ((stepEpisode p jf inc st e).2 = none →
      (stepEpisode p jf inc st e).1.chainActive = true) ∧
    ((stepEpisode p jf inc st e).2 ≠ none →
      (stepEpisode p jf inc st e).2 = some (mkMissing e) ∧
      (stepEpisode p jf inc st e).1.chainActive = false) := by
  have hcond : ((e.seasonNumber != 0 || inc) && p e.aired) = true := by
    rw [Bool.and_eq_true, Bool.or_eq_true, hpast]
    refine ⟨?_, rfl⟩
    rcases hsp with h | h
    · exact Or.inl (bne_iff_ne.mpr h)
    · exact Or.inr h
  by_cases hch : (st.chainActive && (st.chainSeason == e.seasonNumber)) = true
  · rw [Bool.and_eq_true, beq_iff_eq] at hch
    by_cases hm : mergeCheck st.chainJfRuntime
        (st.chainTvdbRuntimeAccum + e.runtimeMinutes) = true
    · have hstep : stepEpisode p jf inc st e =
          ({ st with chainTvdbRuntimeAccum :=
              st.chainTvdbRuntimeAccum + e.runtimeMinutes }, none) := by
        simp [stepEpisode, habs, hcond, hch.1, hch.2, hm]
      rw [hstep]
      refine ⟨?_, ?_, ?_⟩
      · simp only [true_iff]
        exact ⟨hch.1, hch.2, (mergeCheck_iff _ _).mp hm⟩
      · intro _
        exact hch.1
      · intro hne
        exact absurd rfl hne
    · have hstep : stepEpisode p jf inc st e =
          ({ st with chainActive := false, chainTvdbRuntimeAccum :=
              st.chainTvdbRuntimeAccum + e.runtimeMinutes },
            some (mkMissing e)) := by
        simp [stepEpisode, habs, hcond, hch.1, hch.2, hm]
      rw [hstep]
      refine ⟨?_, ?_, ?_⟩
      · simp only [iff_false, reduceCtorEq, false_iff, not_and]
        intro _ _ hq
        exact hm ((mergeCheck_iff _ _).mpr hq)
      · intro hno
        exact absurd hno (by simp)
      · intro _
        exact ⟨rfl, rfl⟩
  · have hstep : stepEpisode p jf inc st e =
        ({ st with chainActive := false }, some (mkMissing e)) := by
      simp [stepEpisode, habs, hcond, hch]
    rw [hstep]
    refine ⟨?_, ?_, ?_⟩
    · simp only [reduceCtorEq, false_iff]
      intro hcontra
      rw [Bool.and_eq_true, beq_iff_eq] at hch
      exact hch ⟨hcontra.1, hcontra.2.1⟩
    · intro hno
      exact absurd hno (by simp)
    · intro _
      exact ⟨rfl, rfl⟩

/-- C1 witness: a concrete instantiation — chain active on season 1
with observed runtime 102 and accumulated expected runtime 100, absent
past-aired S01E02 (expected 20): the step folds, since
102 >= 0.85 * 120. -/
theorem stepEpisode_fold_iff_witness :
    ((stepEpisode pastAll jfEmpty false chainAt102 epS1E2).2 = none ↔
      (chainAt102.chainActive = true ∧
        chainAt102.chainSeason = epS1E2.seasonNumber ∧
        (chainAt102.chainJfRuntime : ℚ) ≥
          ((chainAt102.chainTvdbRuntimeAccum + epS1E2.runtimeMinutes : Int) : ℚ)
            * 0.85)) ∧
    ((stepEpisode pastAll jfEmpty false chainAt102 epS1E2).2 = none →
      (stepEpisode pastAll jfEmpty false chainAt102 epS1E2).1.chainActive = true) ∧
    ((stepEpisode pastAll jfEmpty false chainAt102 epS1E2).2 ≠ none →
      (stepEpisode pastAll jfEmpty false chainAt102 epS1E2).2
          = some (mkMissing epS1E2) ∧
      (stepEpisode pastAll jfEmpty false chainAt102 epS1E2).1.chainActive
          = false) :=
  stepEpisode_fold_iff pastAll jfEmpty false chainAt102 epS1E2 rfl
    (Or.inl (by decide)) rfl

/-- C4: a locally-absent episode whose air date fails the
parses-and-is-strictly-past test is skipped entirely: the step emits
nothing and returns the chain state unchanged in all four components,
and the scan of any sequence starting with it equals the scan of the
rest from the same state (so a later in-season absent episode merges
against the prior chain exactly as if this episode had not occurred). -/
theorem stepEpisode_skip_unaired (p : String → Bool) (jf : Int × Int → Option Int)
    (inc : Bool) (st : ChainState) (e : Episode) (rest : List Episode)
    (habs : jf (e.seasonNumber, e.number) = none)
    (hpast : p e.aired = false) :
    stepEpisode p jf inc st e = (st, none) ∧
    findMissingFrom p jf inc (e :: rest) st = findMissingFrom p jf inc rest st := by
  have h1 : stepEpisode p jf inc st e = (st, none) := by
    simp [stepEpisode, habs, hpast]
  exact ⟨h1, by rw [findMissingFrom, h1]⟩

/-- C4 witness: the not-yet-aired S01E01 `epLater` is skipped — the
active chain state untouched and nothing emitted — and the scan
continues with a same-season absent episode that can still merge. -/
theorem stepEpisode_skip_unaired_witness :
    stepEpisode noneAired jfEmpty false chainAt102 epLater
        = (chainAt102, none) ∧
    findMissingFrom noneAired jfEmpty false [epLater, epS1E2] chainAt102 =
      findMissingFrom noneAired jfEmpty false [epS1E2] chainAt102 :=
  stepEpisode_skip_unaired noneAired jfEmpty false chainAt102 epLater
    [epS1E2] rfl rfl

/-- Every emission of the scan step is the `MissingEpisode` built from
the episode just examined. -/
theorem stepEpisode_emit (p : String → Bool) (jf : Int × Int → Option Int)
    (inc : Bool) (st : ChainState) (e : Episode) :
    (stepEpisode p jf inc st e).2 = none ∨
      (stepEpisode p jf inc st e).2 = some (mkMissing e) := by
  rw [stepEpisode]
  cases jf (e.seasonNumber, e.number) with
  | some rt => simp
  | none =>
      by_cases h1 : ((e.seasonNumber != 0 || inc) && p e.aired) = true
      · by_cases h2 : (st.chainActive && (st.chainSeason == e.seasonNumber)) = true
        · by_cases h3 : mergeCheck st.chainJfRuntime
              (st.chainTvdbRuntimeAccum + e.runtimeMinutes) = true
          · simp [h1, h2, h3]
          · simp [h1, h2, h3]
        · simp [h1, h2]
      · simp [h1]

/-- The scan's output, from any starting state, is a sublist of the
image under `mkMissing` of the locally-absent input episodes. -/
theorem findMissingFrom_sublist (p : String → Bool) (jf : Int × Int → Option Int)
    (inc : Bool) (eps : List Episode) (st : ChainState) :
    (findMissingFrom p jf inc eps st).Sublist
      ((eps.filter (fun e => (jf (e.seasonNumber, e.number)).isNone)).map mkMissing) := by
  induction eps generalizing st with
  | nil => simp [findMissingFrom]
  | cons e rest ih =>
      cases hlook : jf (e.seasonNumber, e.number) with
      | some rt =>
          have hstep : stepEpisode p jf inc st e =
              (⟨true, e.seasonNumber, rt, e.runtimeMinutes⟩, none) := by
            simp [stepEpisode, hlook]
          rw [findMissingFrom, hstep]
          have hfil : (e :: rest).filter
                (fun x => (jf (x.seasonNumber, x.number)).isNone)
              = rest.filter (fun x => (jf (x.seasonNumber, x.number)).isNone) := by
            simp [List.filter_cons, hlook]
          rw [hfil]
          exact ih _
      | none =>
          have hfil : (e :: rest).filter
                (fun x => (jf (x.seasonNumber, x.number)).isNone)
              = e :: rest.filter (fun x => (jf (x.seasonNumber, x.number)).isNone) := by
            simp [List.filter_cons, hlook]
          rw [findMissingFrom, hfil, List.map_cons]
          cases hstep : stepEpisode p jf inc st e with
          | mk st2 m =>
              cases m with
              | none => exact List.Sublist.cons _ (ih st2)
              | some msg =>
                  have hm : msg = mkMissing e := by
                    rcases stepEpisode_emit p jf inc st e with h | h <;>
                      rw [hstep] at h <;> simp at h
                    exact h
                  rw [hm]
                  exact List.Sublist.cons₂ _ (ih st2)

/-- C10: the output of `FindMissingEpisodes` is an order-preserving
subsequence of the input: it is a sublist of the `mkMissing` image of
the locally-absent input episodes, and every reported `MissingEpisode`
comes from an input episode whose (season, episode) key is absent from
the local map, copying that episode's season number, episode number,
name, air-date string and overview verbatim and leaving `SeriesName`
empty. -/
theorem FindMissingEpisodes_output_subsequence (p : String → Bool)
    (jf : Int × Int → Option Int) (inc : Bool) (eps : List Episode) :
    (FindMissingEpisodes p eps jf inc).Sublist
      ((eps.filter (fun e => (jf (e.seasonNumber, e.number)).isNone)).map mkMissing) ∧
    ∀ m ∈ FindMissingEpisodes p eps jf inc,
      ∃ e ∈ eps, jf (e.seasonNumber, e.number) = none ∧
        m.seriesName = "" ∧ m.seasonNumber = e.seasonNumber ∧
        m.episodeNumber = e.number ∧ m.episodeName = e.name ∧
        m.airDate = e.aired ∧ m.overview = e.overview := by
  have hsub := findMissingFrom_sublist p jf inc eps {}
  refine ⟨hsub, ?_⟩
  intro m hm
  have hmem := hsub.subset hm
  rw [List.mem_map] at hmem
  obtain ⟨e, hfil, hme⟩ := hmem
  rw [List.mem_filter] at hfil
  refine ⟨e, hfil.1, Option.isNone_iff_eq_none.mp hfil.2, ?_, ?_, ?_, ?_, ?_, ?_⟩ <;>
    rw [← hme] <;> rfl

/-- Scan lemma for C8: when no scanned episode is present locally, all
air dates have passed and the chain starts inactive, the scan reports
exactly the candidates (non-specials, or everything when
`checkSpecials`). -/
theorem findMissingFrom_no_local (p : String → Bool) (jf : Int × Int → Option Int)
    (inc : Bool) (eps : List Episode) (st : ChainState)
    (hst : st.chainActive = false)
    (h1 : ∀ e ∈ eps, jf (e.seasonNumber, e.number) = none)
    (h2 : ∀ e ∈ eps, p e.aired = true) :
    findMissingFrom p jf inc eps st =
      (eps.filter (fun e => e.seasonNumber != 0 || inc)).map mkMissing := by
  induction eps generalizing st with
  | nil => rfl
  | cons e rest ih =>
      have he := h1 e (List.mem_cons_self e rest)
      have hp := h2 e (List.mem_cons_self e rest)
      have h1r : ∀ x ∈ rest, jf (x.seasonNumber, x.number) = none :=
        fun x hx => h1 x (List.mem_cons_of_mem e hx)
      have h2r : ∀ x ∈ rest, p x.aired = true :=
        fun x hx => h2 x (List.mem_cons_of_mem e hx)
      by_cases hs : (e.seasonNumber != 0 || inc) = true
      · have hcond : ((e.seasonNumber != 0 || inc) && p e.aired) = true := by
          rw [Bool.and_eq_true]
          exact ⟨hs, hp⟩
        have hstep : stepEpisode p jf inc st e =
            ({ st with chainActive := false }, some (mkMissing e)) := by
          simp [stepEpisode, he, hcond, hst]
        rw [findMissingFrom, hstep, List.filter_cons]
        simp only [hs, if_true, List.map_cons]
        congr 1
        exact ih _ rfl h1r h2r
      · have hsf : (e.seasonNumber != 0 || inc) = false := Bool.eq_false_iff.mpr hs
        have hcond : ((e.seasonNumber != 0 || inc) && p e.aired) = false := by
          rw [hsf, Bool.false_and]
        have hstep : stepEpisode p jf inc st e = (st, none) := by
          simp [stepEpisode, he, hcond]
        rw [findMissingFrom, hstep, List.filter_cons]
        simp only [hsf, Bool.false_eq_true, if_false]
        exact ih st hst h1r h2r

/-- C8: on a sequence with no locally observed runtime and every air
date strictly in the past, `FindMissingEpisodes` reports exactly all
episodes when `checkSpecials` is true, and exactly the episodes with
season number different from 0 when it is false. -/
theorem FindMissingEpisodes_no_local (p : String → Bool)
    (jf : Int × Int → Option Int) (eps : List Episode)
    (h1 : ∀ e ∈ eps, jf (e.seasonNumber, e.number) = none)
    (h2 : ∀ e ∈ eps, p e.aired = true) :
    FindMissingEpisodes p eps jf true = eps.map mkMissing ∧
    FindMissingEpisodes p eps jf false =
      (eps.filter (fun e => e.seasonNumber != 0)).map mkMissing := by
  constructor
  · rw [FindMissingEpisodes, findMissingFrom_no_local p jf true eps _ rfl h1 h2]
    simp
  · rw [FindMissingEpisodes, findMissingFrom_no_local p jf false eps _ rfl h1 h2]
    simp

/-- C8 witness: a past-aired special plus a past-aired regular episode,
nothing local: with `checkSpecials` both are reported, without it only
the regular one. -/
theorem FindMissingEpisodes_no_local_witness :
    FindMissingEpisodes pastAll [epSpecial, epS1E2] jfEmpty true
        = [epSpecial, epS1E2].map mkMissing ∧
    FindMissingEpisodes pastAll [epSpecial, epS1E2] jfEmpty false
        = ([epSpecial, epS1E2].filter (fun e => e.seasonNumber != 0)).map mkMissing :=
  FindMissingEpisodes_no_local pastAll jfEmpty [epSpecial, epS1E2]
    (by decide) (by decide)

/-- Each movie iteration increments exactly one of the two counters by
exactly one. -/
theorem stepMovie_count (pm nm : String → Option MovieInfo)
    (mark : String → Bool) (t : Tally) (m : WatchedItem) :
    (stepMovie pm nm mark t m).successful + (stepMovie pm nm mark t m).failed
      = t.successful + t.failed + 1 := by
  rw [stepMovie]
  cases hres : resolveMovie pm nm m with
  | none => simp; omega
  | some info =>
      by_cases hp : info.played = true
      · simp [hp]; omega
      · simp only [hp, Bool.false_eq_true, if_false]
        by_cases hm : mark info.id = true <;> simp [hm] <;> omega

/-- Each episode iteration increments exactly one of the two counters
by exactly one. -/
theorem stepShowEpisode_count (pm ns : String → Option EpisodeInfo)
    (mark : String → Bool) (t : Tally) (e : WatchedItem) :
    (stepShowEpisode pm ns mark t e).successful +
        (stepShowEpisode pm ns mark t e).failed
      = t.successful + t.failed + 1 := by
  rw [stepShowEpisode]
  cases hres : resolveEpisode pm ns e with
  | none => simp; omega
  | some info =>
      by_cases hp : info.played = true
      · simp [hp]; omega
      · simp only [hp, Bool.false_eq_true, if_false]
        by_cases hm : mark info.id = true <;> simp [hm] <;> omega

/-- Folding the movie step over a batch adds the batch size to the
counter total. -/
theorem foldl_stepMovie_count (pm nm : String → Option MovieInfo)
    (mark : String → Bool) (movies : List WatchedItem) (t : Tally) :
    (movies.foldl (stepMovie pm nm mark) t).successful +
        (movies.foldl (stepMovie pm nm mark) t).failed
      = t.successful + t.failed + movies.length := by
  induction movies generalizing t with
  | nil => simp
  | cons m rest ih =>
      rw [List.foldl_cons, List.length_cons, ih, stepMovie_count]
      omega

/-- Folding the episode step over one season adds the season size to
the counter total. -/
theorem foldl_stepShowEpisode_count (pm ns : String → Option EpisodeInfo)
    (mark : String → Bool) (eps : List WatchedItem) (t : Tally) :
    (eps.foldl (stepShowEpisode pm ns mark) t).successful +
        (eps.foldl (stepShowEpisode pm ns mark) t).failed
      = t.successful + t.failed + eps.length := by
  induction eps generalizing t with
  | nil => simp
  | cons e rest ih =>
      rw [List.foldl_cons, List.length_cons, ih, stepShowEpisode_count]
      omega

/-- Folding over all seasons of one series adds the series' episode
total to the counter total. -/
theorem foldl_seasons_count (pm ns : String → Option EpisodeInfo)
    (mark : String → Bool) (seasons : List (String × List WatchedItem)) (t : Tally) :
    ((seasons.foldl
        (fun t2 season => season.2.foldl (stepShowEpisode pm ns mark) t2) t).successful +
      (seasons.foldl
        (fun t2 season => season.2.foldl (stepShowEpisode pm ns mark) t2) t).failed)
      = t.successful + t.failed + totalEpisodes seasons := by
  induction seasons generalizing t with
  | nil => simp [totalEpisodes]
  | cons season rest ih =>
      rw [List.foldl_cons, ih, foldl_stepShowEpisode_count]
      simp [totalEpisodes]
      omega

/-- One series group adds its episode total to the counter total, in
every branch (series-resolution failure, fetch failure, processing). -/
theorem processSeries_count (findSeriesID : String → Option String)
    (getEpisodesForSeries : String → Option (List JellyfinEpisode))
    (mark : String → Bool) (t : Tally) (name : String)
    (seasons : List (String × List WatchedItem)) :
    (processSeries findSeriesID getEpisodesForSeries mark t name seasons).successful +
        (processSeries findSeriesID getEpisodesForSeries mark t name seasons).failed
      = t.successful + t.failed + totalEpisodes seasons := by
  cases hfs : findSeriesID name with
  | none =>
      rw [processSeries]
      simp only [hfs]
      show t.successful + (t.failed + totalEpisodes seasons)
          = t.successful + t.failed + totalEpisodes seasons
      omega
  | some sid =>
      cases hfe : getEpisodesForSeries sid with
      | none =>
          rw [processSeries]
          simp only [hfs, hfe]
          show t.successful + (t.failed + totalEpisodes seasons)
              = t.successful + t.failed + totalEpisodes seasons
          omega
      | some eps =>
          rw [processSeries]
          simp only [hfs, hfe]
          exact foldl_seasons_count _ _ mark seasons t

/-- C9: for every movie batch and every grouped episode batch the
restore coordinator's counters satisfy successful + failed = batch
size; when the initial movie-catalog fetch fails, the result is
exactly zero successes, `|movies|` failures and no mark call. -/
theorem restore_counts_partition
    (fetchAllMovies : Option ((String → Option MovieInfo) × (String → Option MovieInfo)))
    (mark : String → Bool) (movies : List WatchedItem)
    (findSeriesID : String → Option String)
    (getEpisodesForSeries : String → Option (List JellyfinEpisode))
    (tvShowMap : List (String × List (String × List WatchedItem))) :
    ((restoreMovies fetchAllMovies mark movies).successful +
        (restoreMovies fetchAllMovies mark movies).failed = movies.length) ∧
    ((restoreTVShows findSeriesID getEpisodesForSeries mark tvShowMap).successful +
        (restoreTVShows findSeriesID getEpisodesForSeries mark tvShowMap).failed
      = (tvShowMap.map (fun g => totalEpisodes g.2)).sum) ∧
    restoreMovies none mark movies
      = { successful := 0, failed := movies.length, markCalls := [] } := by
  refine ⟨?_, ?_, rfl⟩
  · cases fetchAllMovies with
    | none =>
        have hdef : restoreMovies none mark movies
            = { successful := 0, failed := movies.length, markCalls := [] } := rfl
        rw [hdef]
        simp
    | some maps =>
        obtain ⟨pm, nm⟩ := maps
        have hdef : restoreMovies (some (pm, nm)) mark movies
            = movies.foldl (stepMovie pm nm mark) {} := rfl
        rw [hdef, foldl_stepMovie_count]
        show 0 + 0 + movies.length = movies.length
        omega
  · rw [restoreTVShows]
    have hgen : ∀ (l : List (String × List (String × List WatchedItem))) (t : Tally),
        ((l.foldl (fun t2 g =>
            processSeries findSeriesID getEpisodesForSeries mark t2 g.1 g.2) t).successful +
          (l.foldl (fun t2 g =>
            processSeries findSeriesID getEpisodesForSeries mark t2 g.1 g.2) t).failed)
          = t.successful + t.failed + (l.map (fun g => totalEpisodes g.2)).sum := by
      intro l
      induction l with
      | nil => intro t; simp
      | cons g rest ih =>
          intro t
          rw [List.foldl_cons, ih, processSeries_count]
          simp
          omega
    rw [hgen]
    simp

/-- C6: when resolving a series' live identifier fails, the whole
series group is counted as failed in one step: the failure count grows
by the group's episode total, the success count and the mark-call log
are untouched, the result does not depend on the episode fetcher or the
mark collaborator (so no per-episode resolution or remote call is
attempted), and the run continues with the remaining series groups. -/
theorem restoreTVShows_series_failure (findSeriesID : String → Option String)
    (getEpisodesForSeries : String → Option (List JellyfinEpisode))
    (mark : String → Bool) (t : Tally) (name : String)
    (seasons : List (String × List WatchedItem))
    (rest : List (String × List (String × List WatchedItem)))
    (h : findSeriesID name = none) :
    processSeries findSeriesID getEpisodesForSeries mark t name seasons
        = { t with failed := t.failed + totalEpisodes seasons } ∧
    restoreTVShows findSeriesID getEpisodesForSeries mark ((name, seasons) :: rest)
        = rest.foldl
            (fun t2 g => processSeries findSeriesID getEpisodesForSeries mark t2 g.1 g.2)
            { successful := 0, failed := totalEpisodes seasons, markCalls := [] } := by
  have h1 : ∀ u : Tally,
      processSeries findSeriesID getEpisodesForSeries mark u name seasons
        = { u with failed := u.failed + totalEpisodes seasons } := by
    intro u
    rw [processSeries, h]
  refine ⟨h1 t, ?_⟩
  rw [restoreTVShows, List.foldl_cons, h1]
  norm_num

/-- C6 witness: a one-series group whose lookup fails, followed by no
further groups: its single episode is counted failed, nothing else
happens. -/
theorem restoreTVShows_series_failure_witness :
    processSeries findSeriesNone fetchNone markFail tW "Show"
        [("Season 1", [episodeW])]
        = { tW with failed := tW.failed + totalEpisodes [("Season 1", [episodeW])] } ∧
    restoreTVShows findSeriesNone fetchNone markFail [("Show", [("Season 1", [episodeW])])]
        = List.foldl
            (fun t2 g => processSeries findSeriesNone fetchNone markFail t2 g.1 g.2)
            { successful := 0, failed := totalEpisodes [("Season 1", [episodeW])]
              markCalls := [] }
            ([] : List (String × List (String × List WatchedItem))) :=
  restoreTVShows_series_failure findSeriesNone fetchNone markFail tW "Show"
    [("Season 1", [episodeW])] [] rfl

/-- C7: a snapshot item (movie or episode) that resolves to a live item
already marked played is counted as a success and the mark command is
never invoked for it: the tally gains one success, its mark-call log is
unchanged, and the result holds for an arbitrary mark collaborator. -/
theorem restore_already_played_no_mark
    (pm nm : String → Option MovieInfo) (pe ns : String → Option EpisodeInfo)
    (mark : String → Bool) (t u : Tally) (movie episode : WatchedItem)
    (i : MovieInfo) (j : EpisodeInfo)
    (hm : resolveMovie pm nm movie = some i) (hmp : i.played = true)
    (he : resolveEpisode pe ns episode = some j) (hep : j.played = true) :
    stepMovie pm nm mark t movie = { t with successful := t.successful + 1 } ∧
    stepShowEpisode pe ns mark u episode
        = { u with successful := u.successful + 1 } := by
  constructor
  · rw [stepMovie, hm]
    simp [hmp]
  · rw [stepShowEpisode, he]
    simp [hep]

/-- C7 witness: an already-played movie and an already-played episode,
against a mark collaborator that fails every call — both still come out
as successes with an empty mark-call log, so no call was made. -/
theorem restore_already_played_no_mark_witness :
    stepMovie pmW nmW markFail tW movieW
        = { tW with successful := tW.successful + 1 } ∧
    stepShowEpisode peW neW markFail tW episodeW
        = { tW with successful := tW.successful + 1 } :=
  restore_already_played_no_mark pmW nmW peW neW markFail tW tW movieW episodeW
    miW eiW (by decide) rfl (by decide) rfl
